import Mathlib

/-!
Verification of the vacation lifecycle engine of Server-Horarios-App.

The embedding models the Mongoose `Vacation` schema (its defaults, virtuals
and pre-save middlewares) together with the Express route handlers in
`server.js` (`POST /api/vacations`, `PUT /api/vacations/:id`,
`POST /api/vacations/:id/approve`, `/reject`, `/cancel`, and
`GET /api/vacations/employee/:id/balance`).

Dates are modelled as UTC timestamps in milliseconds since the Unix epoch
(`Nat`); the spec assumes dates are at midnight with no timezone ambiguity.
The document store is a `List Vacation`; Mongo queries become `List.find?` /
`List.filter` with the same predicates the source builds.
-/

namespace Horarios

/-- Milliseconds in one day, `1000 * 60 * 60 * 24` as in the source. -/
def dayMs : Nat := 1000 * 60 * 60 * 24

/-- JS `Date.prototype.getDay` for a UTC day number (days since the epoch):
the epoch day 0 (1970-01-01) was a Thursday, i.e. weekday 4 (0 = Sunday). -/
def diaSemana (day : Nat) : Nat := (day + 4) % 7

/-- The loop body test of the `diasHabilesCalculados` virtual:
`dayOfWeek !== 0 && dayOfWeek !== 6` (not Sunday, not Saturday). -/
def esHabil (day : Nat) : Bool := decide (diaSemana day ≠ 0) && decide (diaSemana day ≠ 6)

/-- Count business days over `n` consecutive day numbers starting at `d`
(the loop of the `diasHabilesCalculados` virtual). -/
def cuentaHabiles : Nat → Nat → Nat
  | _, 0 => 0
  | d, Nat.succ n => (if esHabil d then 1 else 0) + cuentaHabiles (d + 1) n

/-- Count weekend days over `n` consecutive day numbers starting at `d`. -/
def cuentaFinde : Nat → Nat → Nat
  | _, 0 => 0
  | d, Nat.succ n => (if esHabil d then 0 else 1) + cuentaFinde (d + 1) n

/-- The `diasTotales` virtual: `Math.ceil((fin - inicio) / dayMs) + 1`.
The engine only evaluates it with `inicio ≤ fin` (route validation rejects
other inputs before the virtual is read), so `Nat` subtraction is faithful. -/
def diasTotales (inicio fin : Nat) : Nat := (fin - inicio + (dayMs - 1)) / dayMs + 1

/-- The `diasHabilesCalculados` virtual: iterate `date` from `inicio` by one
day while `date ≤ fin`, counting non-weekend days.  The iterated timestamps
are `inicio + k * dayMs` for `k = 0 .. (fin - inicio) / dayMs`, and each has
day number `inicio / dayMs + k`. -/
def diasHabilesCalculados (inicio fin : Nat) : Nat :=
  if inicio ≤ fin then cuentaHabiles (inicio / dayMs) ((fin - inicio) / dayMs + 1) else 0

/-- Modelled from the spec: `weekendDaysInSpan(start, end)`, the number of
Saturdays and Sundays in the inclusive span, iterated exactly like the
`diasHabilesCalculados` virtual but counting the complementary days.  (The
source has no standalone function for this; §8 of the spec names it.) -/
def weekendDaysInSpan (inicio fin : Nat) : Nat :=
  if inicio ≤ fin then cuentaFinde (inicio / dayMs) ((fin - inicio) / dayMs + 1) else 0

/-- Days in a Gregorian year (for modelling JS `getFullYear`). -/
def daysInYear (y : Nat) : Nat :=
  if y % 4 = 0 && (y % 100 ≠ 0 || y % 400 = 0) then 366 else 365

/-- Fuel-driven year lookup: starting from 1970, subtract whole years. -/
def yearOfDayGo : Nat → Nat → Nat → Nat
  | 0, y, _ => y
  | Nat.succ fuel, y, d => if d < daysInYear y then y else yearOfDayGo fuel (y + 1) (d - daysInYear y)

/-- Gregorian year of a UTC day number (days since 1970-01-01). -/
def yearOfDay (d : Nat) : Nat := yearOfDayGo (d + 1) 1970 d

/-- JS `new Date(ms).getFullYear()` for a UTC timestamp in milliseconds. -/
def getFullYear (ms : Nat) : Nat := yearOfDay (ms / dayMs)

/-- The `estado` enum of the vacation schema. -/
inductive Estado where
  | pendiente | aprobada | rechazada | cancelada | en_curso | completada
deriving DecidableEq, Repr

/-- The `tipoVacacion` enum of the vacation schema. -/
inductive TipoVacacion where
  | vacaciones | permiso_personal | licencia_medica | permiso_matrimonio
  | permiso_maternidad | permiso_paternidad | licencia_sin_goce | otro
deriving DecidableEq, Repr

/-- The `role` enum of the user schema. -/
inductive Role where
  | empleado | admin | rrhh
deriving DecidableEq, Repr

/-- A user, reduced to the fields the vacation routes read. -/
structure Usr where
  id : Nat
  role : Role
deriving DecidableEq, Repr

/-- A `Vacation` document (ObjectIds modelled as `Nat`). -/
structure Vacation where
  id : Nat
  empleado : Nat
  fechaInicio : Nat
  fechaFin : Nat
  tipoVacacion : TipoVacacion
  estado : Estado
  motivo : String
  observaciones : Option String
  aprobadoPor : Option Nat
  fechaAprobacion : Option Nat
  motivoRechazo : Option String
  diasSolicitados : Option Nat
  diasHabiles : Option Nat
  afectaSalario : Bool
  reemplazo : Option Nat
  instruccionesReemplazo : Option String
  urgente : Bool
  anoVacacional : Nat
  creadoPor : Nat
  modificadoPor : Option Nat
deriving DecidableEq, Repr

/-- `estado: { $in: ['aprobada', 'pendiente', 'en_curso'] }` — the statuses
that participate in the overlap queries. -/
def estadoActivo : Estado → Bool
  | .aprobada => true
  | .pendiente => true
  | .en_curso => true
  | _ => false

/-- The inclusive-inclusive overlap test used by both overlap queries:
an existing record `[bInicio, bFin]` conflicts with a candidate
`[aInicio, aFin]` iff `bInicio ≤ aFin` and `bFin ≥ aInicio`. -/
def solapan (aInicio aFin bInicio bFin : Nat) : Bool :=
  decide (bInicio ≤ aFin) && decide (bFin ≥ aInicio)

/-- The Mongo overlap query (`findOne` in the create route and in the
pre-save middleware): first record of the employee, optionally excluding one
id (`_id: { $ne: ... }`), with active status and overlapping interval. -/
def findConflicting (store : List Vacation) (emp inicio fin : Nat)
    (excl : Option Nat) : Option Vacation :=
  store.find? fun w =>
    decide (w.empleado = emp) &&
    (match excl with
     | some i => decide (w.id ≠ i)
     | none => true) &&
    estadoActivo w.estado &&
    solapan inicio fin w.fechaInicio w.fechaFin

/-- `Model.findById`. -/
def findById (store : List Vacation) (id : Nat) : Option Vacation :=
  store.find? fun w => decide (w.id = id)

/-- Persisting a changed document (`save` on an existing id, or
`findByIdAndUpdate`): replace the record with that id. -/
def replaceById (store : List Vacation) (v : Vacation) : List Vacation :=
  store.map fun w => if w.id = v.id then v else w

/-- A fresh ObjectId for an insert: one above every id in the collection. -/
def newId (store : List Vacation) : Nat :=
  store.foldr (fun w m => max w.id m) 0 + 1

/-- JS falsiness of an optional number (`!this.diasSolicitados` is true for
both `undefined` and `0`). -/
def jsFalsy : Option Nat → Bool
  | none => true
  | some n => decide (n = 0)

/-- Decidable equality on `Except`, for evaluating engine runs on concrete
inputs. -/
instance {ε α : Type} [DecidableEq ε] [DecidableEq α] : DecidableEq (Except ε α) := fun x y =>
  match x, y with
  | .ok a, .ok b => if h : a = b then .isTrue (by simp [h]) else .isFalse (by simp [h])
  | .error a, .error b => if h : a = b then .isTrue (by simp [h]) else .isFalse (by simp [h])
  | .ok _, .error _ => .isFalse (by simp)
  | .error _, .ok _ => .isFalse (by simp)

/-- Error kinds produced by the routes and the save middlewares.  The HTTP
layer maps them to status codes (400/403/404/409/500); an error response
never mutates the store. -/
inductive VacError where
  | validationError
  | employeeNotFound
  | replacementNotFound
  | invalidDateRange
  | overlappingRequest
  | notFound
  | forbidden
  | invalidTransition
  | immutableState
  | pastStartDate
deriving DecidableEq, Repr

/-- First `pre('save')` middleware: derive `diasSolicitados` and
`diasHabiles` from the virtuals when missing (JS falsy check), and set
`fechaAprobacion` when the document is saved already approved without one. -/
def preSaveDerive (now : Nat) (v : Vacation) : Vacation :=
  { v with
    diasSolicitados :=
      if jsFalsy v.diasSolicitados then some (diasTotales v.fechaInicio v.fechaFin)
      else v.diasSolicitados,
    diasHabiles :=
      if jsFalsy v.diasHabiles then some (diasHabilesCalculados v.fechaInicio v.fechaFin)
      else v.diasHabiles,
    fechaAprobacion :=
      if v.estado = .aprobada ∧ v.fechaAprobacion = none then some now
      else v.fechaAprobacion }

/-- `Document.save()`: run both `pre('save')` middlewares, then insert
(`isNew = true`) or replace the stored document.  The second middleware
rejects new documents starting in the past, and re-runs the overlap query
(excluding the document's own id) when the document is saved `pendiente` or
`aprobada`. -/
def saveDoc (store : List Vacation) (now : Nat) (v : Vacation) (isNew : Bool) :
    Except VacError (Vacation × List Vacation) :=
  if isNew ∧ (preSaveDerive now v).fechaInicio < now then .error .pastStartDate
  else if ((preSaveDerive now v).estado = .aprobada ∨ (preSaveDerive now v).estado = .pendiente) ∧
      (findConflicting store (preSaveDerive now v).empleado (preSaveDerive now v).fechaInicio
        (preSaveDerive now v).fechaFin (some (preSaveDerive now v).id)).isSome then
    .error .overlappingRequest
  else .ok (preSaveDerive now v,
    if isNew then store ++ [preSaveDerive now v] else replaceById store (preSaveDerive now v))

/-- The body of `POST /api/vacations` as the route validators leave it:
`req.body` is spread into the model, so every schema path is assignable —
in particular `estado`, `diasSolicitados`, `diasHabiles` and
`anoVacacional` are accepted even though no validator covers them. -/
structure CreateInput where
  empleado : Option Nat
  fechaInicio : Nat
  fechaFin : Nat
  tipoVacacion : TipoVacacion
  motivo : String
  observaciones : Option String
  reemplazo : Option Nat
  instruccionesReemplazo : Option String
  urgente : Option Bool
  estado : Option Estado
  diasSolicitados : Option Nat
  diasHabiles : Option Nat
  anoVacacional : Option Nat
deriving DecidableEq, Repr

/-- JS `String.prototype.trim` (as used by the express-validator `trim()`
sanitizer and the schema's `trim: true`): drop leading and trailing
whitespace.  Modelled structurally over the character list so that concrete
instances compute. -/
def trimStr (s : String) : String :=
  ⟨(((s.data.dropWhile Char.isWhitespace).reverse.dropWhile Char.isWhitespace).reverse)⟩

/-- `reemplazo` given but not resolving to an existing user. -/
def reemplazoMissing (users : List Usr) : Option Nat → Bool
  | some r => (users.find? fun u => decide (u.id = r)).isNone
  | none => false

/-- The express-validator chain of the create route: `motivo` is trimmed and
must be non-empty and at most 500 characters; `observaciones` and
`instruccionesReemplazo` at most 1000. -/
def validCreateBody (inp : CreateInput) : Bool :=
  decide ((trimStr inp.motivo) ≠ "") && decide ((trimStr inp.motivo).length ≤ 500) &&
  (match inp.observaciones with
   | some s => decide (s.length ≤ 1000)
   | none => true) &&
  (match inp.instruccionesReemplazo with
   | some s => decide (s.length ≤ 1000)
   | none => true)

/-- `req.user.role === 'empleado' ? req.user._id : (vacationData.empleado || req.user._id)`. -/
def empleadoIdFor (requester : Usr) (inp : CreateInput) : Nat :=
  match requester.role with
  | .empleado => requester.id
  | _ => inp.empleado.getD requester.id

/-- `new Vacation({ ...vacationData, empleado: empleadoId, creadoPor: req.user._id })`
with the schema defaults applied to the absent paths (`estado: 'pendiente'`,
`anoVacacional: new Date().getFullYear()`, booleans `false`). -/
def mkVacationDoc (inp : CreateInput) (empId freshId creadorId now : Nat) : Vacation :=
  { id := freshId
    empleado := empId
    fechaInicio := inp.fechaInicio
    fechaFin := inp.fechaFin
    tipoVacacion := inp.tipoVacacion
    estado := inp.estado.getD .pendiente
    motivo := (trimStr inp.motivo)
    observaciones := inp.observaciones
    aprobadoPor := none
    fechaAprobacion := none
    motivoRechazo := none
    diasSolicitados := inp.diasSolicitados
    diasHabiles := inp.diasHabiles
    afectaSalario := false
    reemplazo := inp.reemplazo
    instruccionesReemplazo := inp.instruccionesReemplazo
    urgente := inp.urgente.getD false
    anoVacacional := inp.anoVacacional.getD (getFullYear now)
    creadoPor := creadorId
    modificadoPor := none }

/-- `POST /api/vacations`: body validation, employee and replacement
existence, `fechaFin > fechaInicio`, the route-level overlap query, then
`vacation.save()`. -/
def createVacation (users : List Usr) (store : List Vacation) (requester : Usr)
    (inp : CreateInput) (now : Nat) : Except VacError (Vacation × List Vacation) :=
  if ¬ validCreateBody inp then .error .validationError
  else if (users.find? fun u => decide (u.id = empleadoIdFor requester inp)).isNone then
    .error .employeeNotFound
  else if reemplazoMissing users inp.reemplazo then .error .replacementNotFound
  else if inp.fechaFin ≤ inp.fechaInicio then .error .invalidDateRange
  else if (findConflicting store (empleadoIdFor requester inp) inp.fechaInicio inp.fechaFin
      none).isSome then
    .error .overlappingRequest
  else
    saveDoc store now
      (mkVacationDoc inp (empleadoIdFor requester inp) (newId store) requester.id now) true

/-- The body of `PUT /api/vacations/:id`; like create, the whole body is
spread into the update, so `estado` is also assignable here. -/
structure UpdatePatch where
  fechaInicio : Option Nat
  fechaFin : Option Nat
  tipoVacacion : Option TipoVacacion
  motivo : Option String
  observaciones : Option String
  reemplazo : Option Nat
  instruccionesReemplazo : Option String
  urgente : Option Bool
  estado : Option Estado
deriving DecidableEq, Repr

/-- The optional express-validator checks of the update route. -/
def validUpdateBody (p : UpdatePatch) : Bool :=
  (match p.motivo with
   | some s => decide ((trimStr s) ≠ "") && decide ((trimStr s).length ≤ 500)
   | none => true) &&
  (match p.observaciones with
   | some s => decide (s.length ≤ 1000)
   | none => true) &&
  (match p.instruccionesReemplazo with
   | some s => decide (s.length ≤ 1000)
   | none => true)

/-- Merge the patch into the stored document
(`findByIdAndUpdate(id, { ...req.body, modificadoPor })`). -/
def applyPatch (v : Vacation) (p : UpdatePatch) (modificadorId : Nat) : Vacation :=
  { v with
    fechaInicio := p.fechaInicio.getD v.fechaInicio
    fechaFin := p.fechaFin.getD v.fechaFin
    tipoVacacion := p.tipoVacacion.getD v.tipoVacacion
    motivo := (p.motivo.map trimStr).getD v.motivo
    observaciones := match p.observaciones with
      | some s => some s
      | none => v.observaciones
    reemplazo := match p.reemplazo with
      | some r => some r
      | none => v.reemplazo
    instruccionesReemplazo := match p.instruccionesReemplazo with
      | some s => some s
      | none => v.instruccionesReemplazo
    urgente := p.urgente.getD v.urgente
    estado := p.estado.getD v.estado
    modificadoPor := some modificadorId }

/-- `PUT /api/vacations/:id`: only pending requests are editable, employees
only their own.  The write goes through `findByIdAndUpdate`, which does NOT
run the `pre('save')` middlewares — no overlap re-check happens here. -/
def updateVacation (users : List Usr) (store : List Vacation) (requester : Usr)
    (id : Nat) (p : UpdatePatch) : Except VacError (Vacation × List Vacation) :=
  if ¬ validUpdateBody p then .error .validationError
  else
    match findById store id with
    | none => .error .notFound
    | some v =>
      if v.estado ≠ .pendiente then .error .immutableState
      else if requester.role = .empleado ∧ v.empleado ≠ requester.id then .error .forbidden
      else if reemplazoMissing users p.reemplazo then .error .replacementNotFound
      else
        let v1 := applyPatch v p requester.id
        .ok (v1, replaceById store v1)

/-- `POST /api/vacations/:id/approve` (roles admin/rrhh): pending records
only; sets approval fields and saves. -/
def approveVacation (_users : List Usr) (store : List Vacation) (requester : Usr)
    (id : Nat) (now : Nat) : Except VacError (Vacation × List Vacation) :=
  if requester.role = .empleado then .error .forbidden
  else
    match findById store id with
    | none => .error .notFound
    | some v =>
      if v.estado ≠ .pendiente then .error .invalidTransition
      else
        saveDoc store now
          { v with
            estado := .aprobada
            aprobadoPor := some requester.id
            fechaAprobacion := some now
            modificadoPor := some requester.id } false

/-- `POST /api/vacations/:id/reject` (roles admin/rrhh): `motivoRechazo`
trimmed, non-empty, at most 500 characters; pending records only. -/
def rejectVacation (_users : List Usr) (store : List Vacation) (requester : Usr)
    (id : Nat) (motivoRechazo : Option String) (now : Nat) :
    Except VacError (Vacation × List Vacation) :=
  if requester.role = .empleado then .error .forbidden
  else
    match motivoRechazo with
    | none => .error .validationError
    | some s =>
      if (trimStr s) = "" ∨ 500 < (trimStr s).length then .error .validationError
      else
        match findById store id with
        | none => .error .notFound
        | some v =>
          if v.estado ≠ .pendiente then .error .invalidTransition
          else
            saveDoc store now
              { v with
                estado := .rechazada
                motivoRechazo := some (trimStr s)
                aprobadoPor := some requester.id
                fechaAprobacion := some now
                modificadoPor := some requester.id } false

/-- `POST /api/vacations/:id/cancel`: employees only their own records;
only pending or approved records can be cancelled. -/
def cancelVacation (_users : List Usr) (store : List Vacation) (requester : Usr)
    (id : Nat) (now : Nat) : Except VacError (Vacation × List Vacation) :=
  match findById store id with
  | none => .error .notFound
  | some v =>
    if requester.role = .empleado ∧ v.empleado ≠ requester.id then .error .forbidden
    else if ¬ (v.estado = .pendiente ∨ v.estado = .aprobada) then .error .invalidTransition
    else
      saveDoc store now
        { v with
          estado := .cancelada
          modificadoPor := some requester.id } false

/-- The response body of `GET /api/vacations/employee/:id/balance`. -/
structure Balance where
  diasDisponibles : Nat
  diasUtilizados : Nat
  diasRestantes : Int
deriving DecidableEq, Repr

/-- The filter of the balance query: the employee's records for the year
with status in `{aprobada, en_curso, completada}`. -/
def balanceFilter (empId year : Nat) (w : Vacation) : Bool :=
  decide (w.empleado = empId) && decide (w.anoVacacional = year) &&
  (match w.estado with
   | .aprobada => true
   | .en_curso => true
   | .completada => true
   | _ => false)

/-- `GET /api/vacations/employee/:id/balance`: employees only their own;
sums `diasHabiles` over the filtered records and subtracts from the
hardcoded `diasDisponibles = 22` ("debería obtenerse del contrato"). -/
def vacationBalance (users : List Usr) (store : List Vacation) (requester : Usr)
    (empId : Nat) (yearQ : Option Nat) (now : Nat) : Except VacError Balance :=
  if requester.role = .empleado ∧ empId ≠ requester.id then .error .forbidden
  else if (users.find? fun u => decide (u.id = empId)).isNone then .error .employeeNotFound
  else
    .ok { diasDisponibles := 22
          diasUtilizados := ((store.filter
            (balanceFilter empId (yearQ.getD (getFullYear now)))).map
              fun w => w.diasHabiles.getD 0).sum
          diasRestantes := (22 : Int) - Int.ofNat ((store.filter
            (balanceFilter empId (yearQ.getD (getFullYear now)))).map
              fun w => w.diasHabiles.getD 0).sum }

/-- The no-overlap invariant of the spec: no two distinct records of the
same employee, both with active status, have overlapping inclusive
intervals. -/
def noOverlapInv (store : List Vacation) : Bool :=
  store.all fun a => store.all fun b =>
    !(decide (a.id ≠ b.id) && decide (a.empleado = b.empleado) &&
      estadoActivo a.estado && estadoActivo b.estado &&
      solapan a.fechaInicio a.fechaFin b.fechaInicio b.fechaFin)

/-- One engine operation, as the claim's list reads without `update`:
create, approve, reject or cancel succeeding on some arguments. -/
inductive EngineStep (users : List Usr) : List Vacation → List Vacation → Prop
  | create (store : List Vacation) (requester : Usr) (inp : CreateInput) (now : Nat)
      (v : Vacation) (s2 : List Vacation) :
      createVacation users store requester inp now = .ok (v, s2) → EngineStep users store s2
  | approve (store : List Vacation) (requester : Usr) (id now : Nat)
      (v : Vacation) (s2 : List Vacation) :
      approveVacation users store requester id now = .ok (v, s2) → EngineStep users store s2
  | reject (store : List Vacation) (requester : Usr) (id : Nat) (mr : Option String) (now : Nat)
      (v : Vacation) (s2 : List Vacation) :
      rejectVacation users store requester id mr now = .ok (v, s2) → EngineStep users store s2
  | cancel (store : List Vacation) (requester : Usr) (id now : Nat)
      (v : Vacation) (s2 : List Vacation) :
      cancelVacation users store requester id now = .ok (v, s2) → EngineStep users store s2

/-- A finite sequence of engine operations. -/
inductive EngineSteps (users : List Usr) : List Vacation → List Vacation → Prop
  | refl (s : List Vacation) : EngineSteps users s s
  | tail {s1 s2 s3 : List Vacation} :
      EngineSteps users s1 s2 → EngineStep users s2 s3 → EngineSteps users s1 s3

/-- The spec's overlap-freedom invariant: no two distinct records of the
same employee, both in an active status, have overlapping inclusive
intervals. -/
def NoOverlap (store : List Vacation) : Prop :=
  ∀ a ∈ store, ∀ b ∈ store,
    a.id ≠ b.id → a.empleado = b.empleado →
    estadoActivo a.estado = true → estadoActivo b.estado = true →
    solapan a.fechaInicio a.fechaFin b.fechaInicio b.fechaFin = false

instance (store : List Vacation) : Decidable (NoOverlap store) := by
  unfold NoOverlap; infer_instance

/- Concrete data for counterexamples and witnesses.  Timestamps are UTC
midnights: day 19905 = 2024-07-01, 19914 = 2024-07-10, 19919 = 2024-07-15,
19924 = 2024-07-20, 19929 = 2024-07-25, 19933 = 2024-07-29,
19945 = 2024-08-10, 19955 = 2024-08-20, 19884 = 2024-06-10,
19894 = 2024-06-20, 20087 = 2024-12-30, 20098 = 2025-01-10,
20108 = 2025-01-20. -/

/-- Two users: employee 1 and admin 2. -/
def demoUsers : List Usr := [⟨1, .empleado⟩, ⟨2, .admin⟩]

/-- The employee. -/
def emp1 : Usr := ⟨1, .empleado⟩

/-- The admin. -/
def adminUsr : Usr := ⟨2, .admin⟩

/-- 2024-07-01T00:00Z. -/
def nowJul1 : Nat := 19905 * 86400000

/-- Create request: 2024-07-10 → 2024-07-20, no optional fields. -/
def inpA : CreateInput :=
  ⟨none, 19914 * 86400000, 19924 * 86400000, .vacaciones, "viaje", none, none, none,
   none, none, none, none, none⟩

/-- Create request: 2024-08-10 → 2024-08-20, no optional fields. -/
def inpB : CreateInput :=
  ⟨none, 19945 * 86400000, 19955 * 86400000, .vacaciones, "playa", none, none, none,
   none, none, none, none, none⟩

/-- Patch moving only the start date to 2024-07-15 (into record A's span). -/
def patchB : UpdatePatch :=
  ⟨some (19919 * 86400000), none, none, none, none, none, none, none, none⟩

/-- The store after creating A then B (both succeed: disjoint spans). -/
def storeAB : Except VacError (List Vacation) :=
  (createVacation demoUsers [] emp1 inpA nowJul1).bind fun r1 =>
    (createVacation demoUsers r1.2 emp1 inpB nowJul1).map fun r2 => r2.2

/-- The store after additionally updating record B's start date. -/
def storeABupd : Except VacError (List Vacation) :=
  storeAB.bind fun s2 => (updateVacation demoUsers s2 emp1 2 patchB).map fun r => r.2

/-- The record persisted by `createVacation demoUsers [] emp1 inpA nowJul1`. -/
def recA : Vacation :=
  ⟨1, 1, 1720569600000, 1721433600000, .vacaciones, .pendiente, "viaje", none, none, none,
   none, some 11, some 8, false, none, none, false, 2024, 1, none⟩

/-- An approved record of employee 1 for 2024-07-10 → 2024-07-20. -/
def recJulAprob : Vacation :=
  ⟨1, 1, 19914 * 86400000, 19924 * 86400000, .vacaciones, .aprobada, "viaje", none, some 2,
   some (19905 * 86400000), none, some 11, some 8, false, none, none, false, 2024, 1, none⟩

/-- Create request touching the previous record's end: 2024-07-20 → 2024-07-25. -/
def inpTouch : CreateInput :=
  ⟨none, 19924 * 86400000, 19929 * 86400000, .vacaciones, "puente", none, none, none,
   none, none, none, none, none⟩

/-- The create body of `inpA` with a mass-assigned `estado`. -/
def inpEstadoAprobada : CreateInput := { inpA with estado := some .aprobada }

/-- 2024-12-30T00:00Z. -/
def nowDec30 : Nat := 20087 * 86400000

/-- Create request for 2025-01-10 → 2025-01-20 (next calendar year). -/
def inpEnero : CreateInput :=
  ⟨none, 20098 * 86400000, 20108 * 86400000, .vacaciones, "reyes", none, none, none,
   none, none, none, none, none⟩

/-- Create request for 2024-06-10 → 2024-06-20 (before `nowJul1`). -/
def inpJunio : CreateInput :=
  ⟨none, 19884 * 86400000, 19894 * 86400000, .vacaciones, "verano", none, none, none,
   none, none, none, none, none⟩

/-- Scenario A create request: 2024-07-15 → 2024-07-29, day counts omitted. -/
def inpScenA : CreateInput :=
  ⟨none, 19919 * 86400000, 19933 * 86400000, .vacaciones, "viaje", none, none, none,
   none, none, none, none, none⟩

/-- The record persisted by `createVacation demoUsers [] emp1 inpScenA nowJul1`:
15 requested days, 11 business days. -/
def recScenA : Vacation :=
  ⟨1, 1, 1721001600000, 1722211200000, .vacaciones, .pendiente, "viaje", none, none, none,
   none, some 15, some 11, false, none, none, false, 2024, 1, none⟩

/-- A rejected record of employee 1 (Scenario D input). -/
def recRech : Vacation :=
  ⟨1, 1, 1720569600000, 1721433600000, .vacaciones, .rechazada, "viaje", none, some 2,
   some 1719792000000, some "sin cupo", some 11, some 8, false, none, none, false, 2024, 1,
   some 2⟩

@[simp] lemma preSaveDerive_id (now : Nat) (v : Vacation) : (preSaveDerive now v).id = v.id := rfl

@[simp] lemma preSaveDerive_empleado (now : Nat) (v : Vacation) :
    (preSaveDerive now v).empleado = v.empleado := rfl

@[simp] lemma preSaveDerive_fechaInicio (now : Nat) (v : Vacation) :
    (preSaveDerive now v).fechaInicio = v.fechaInicio := rfl

@[simp] lemma preSaveDerive_fechaFin (now : Nat) (v : Vacation) :
    (preSaveDerive now v).fechaFin = v.fechaFin := rfl

@[simp] lemma preSaveDerive_estado (now : Nat) (v : Vacation) :
    (preSaveDerive now v).estado = v.estado := rfl

@[simp] lemma preSaveDerive_aprobadoPor (now : Nat) (v : Vacation) :
    (preSaveDerive now v).aprobadoPor = v.aprobadoPor := rfl

@[simp] lemma preSaveDerive_motivoRechazo (now : Nat) (v : Vacation) :
    (preSaveDerive now v).motivoRechazo = v.motivoRechazo := rfl

@[simp] lemma mkVacationDoc_empleado (inp : CreateInput) (e f c n : Nat) :
    (mkVacationDoc inp e f c n).empleado = e := rfl

@[simp] lemma mkVacationDoc_fechaInicio (inp : CreateInput) (e f c n : Nat) :
    (mkVacationDoc inp e f c n).fechaInicio = inp.fechaInicio := rfl

@[simp] lemma mkVacationDoc_fechaFin (inp : CreateInput) (e f c n : Nat) :
    (mkVacationDoc inp e f c n).fechaFin = inp.fechaFin := rfl

@[simp] lemma mkVacationDoc_estado (inp : CreateInput) (e f c n : Nat) :
    (mkVacationDoc inp e f c n).estado = inp.estado.getD .pendiente := rfl

@[simp] lemma mkVacationDoc_anoVacacional (inp : CreateInput) (e f c n : Nat) :
    (mkVacationDoc inp e f c n).anoVacacional = inp.anoVacacional.getD (getFullYear n) := rfl

/-- The overlap test is symmetric in the two intervals. -/
lemma solapan_comm (a b c d : Nat) : solapan a b c d = solapan c d a b := by
  simp [solapan, ge_iff_le, Bool.and_comm]

/-- If the overlap query returns nothing, then no stored record of the
employee (other than the excluded one) in an active status overlaps the
candidate interval. -/
lemma not_conflicting_of_none {store : List Vacation} {e i f : Nat} {excl : Option Nat}
    (h : findConflicting store e i f excl = none) {w : Vacation} (hw : w ∈ store)
    (hemp : w.empleado = e) (hexcl : ∀ x, excl = some x → w.id ≠ x)
    (hact : estadoActivo w.estado = true) :
    solapan i f w.fechaInicio w.fechaFin = false := by
  unfold findConflicting at h
  cases hsol : solapan i f w.fechaInicio w.fechaFin
  · rfl
  · exfalso
    cases excl with
    | none =>
      apply List.find?_eq_none.mp h w hw
      show (decide (w.empleado = e) && true && estadoActivo w.estado &&
        solapan i f w.fechaInicio w.fechaFin) = true
      rw [decide_eq_true hemp, hact, hsol]
      rfl
    | some x =>
      apply List.find?_eq_none.mp h w hw
      show (decide (w.empleado = e) && decide (w.id ≠ x) && estadoActivo w.estado &&
        solapan i f w.fechaInicio w.fechaFin) = true
      rw [decide_eq_true hemp, decide_eq_true (hexcl x rfl), hact, hsol]
      rfl

/-- Members of a replaced store are the replacement or untouched records. -/
lemma mem_replaceById {store : List Vacation} {v w : Vacation}
    (hw : w ∈ replaceById store v) : w = v ∨ (w ∈ store ∧ w.id ≠ v.id) := by
  unfold replaceById at hw
  rcases List.mem_map.mp hw with ⟨x, hx, hxe⟩
  by_cases hid : x.id = v.id
  · rw [if_pos hid] at hxe
    exact Or.inl hxe.symm
  · rw [if_neg hid] at hxe
    exact Or.inr (hxe ▸ ⟨hx, hid⟩)

/-- Inserting a record whose interval passed the overlap query (no
exclusion) keeps the store overlap-free. -/
lemma NoOverlap_insert {store : List Vacation} {v : Vacation} (hinv : NoOverlap store)
    (hnoc : findConflicting store v.empleado v.fechaInicio v.fechaFin none = none) :
    NoOverlap (store ++ [v]) := by
  intro a ha b hb hid hemp hacta hactb
  rcases List.mem_append.mp ha with ha2 | ha2 <;> rcases List.mem_append.mp hb with hb2 | hb2
  · exact hinv a ha2 b hb2 hid hemp hacta hactb
  · have hbv : b = v := List.mem_singleton.mp hb2
    subst hbv
    rw [solapan_comm]
    exact not_conflicting_of_none hnoc ha2 hemp (fun x hx => by cases hx) hacta
  · have hav : a = v := List.mem_singleton.mp ha2
    subst hav
    exact not_conflicting_of_none hnoc hb2 hemp.symm (fun x hx => by cases hx) hactb
  · have hav : a = v := List.mem_singleton.mp ha2
    have hbv : b = v := List.mem_singleton.mp hb2
    subst hav; subst hbv
    exact absurd rfl hid

/-- Replacing a record by one that is either inactive or passed the overlap
query (excluding its own id) keeps the store overlap-free. -/
lemma NoOverlap_replace {store : List Vacation} {v : Vacation} (hinv : NoOverlap store)
    (hok : estadoActivo v.estado = false ∨
      findConflicting store v.empleado v.fechaInicio v.fechaFin (some v.id) = none) :
    NoOverlap (replaceById store v) := by
  intro a ha b hb hid hemp hacta hactb
  rcases mem_replaceById ha with ha2 | ⟨ha2, hida⟩ <;>
    rcases mem_replaceById hb with hb2 | ⟨hb2, hidb⟩
  · subst ha2; subst hb2
    exact absurd rfl hid
  · subst ha2
    rcases hok with hf | hn
    · rw [hf] at hacta
      cases hacta
    · exact not_conflicting_of_none hn hb2 hemp.symm
        (fun x hx => by cases hx; exact hidb) hactb
  · subst hb2
    rcases hok with hf | hn
    · rw [hf] at hactb
      cases hactb
    · rw [solapan_comm]
      exact not_conflicting_of_none hn ha2 hemp
        (fun x hx => by cases hx; exact hida) hacta
  · exact hinv a ha2 b hb2 hid hemp hacta hactb

/-- Inverting a successful `saveDoc`. -/
lemma saveDoc_ok {store : List Vacation} {now : Nat} {v : Vacation} {isNew : Bool}
    {v1 : Vacation} {s1 : List Vacation}
    (h : saveDoc store now v isNew = .ok (v1, s1)) :
    v1 = preSaveDerive now v ∧
    s1 = (if isNew then store ++ [v1] else replaceById store v1) ∧
    ((v1.estado = .aprobada ∨ v1.estado = .pendiente) →
      findConflicting store v1.empleado v1.fechaInicio v1.fechaFin (some v1.id) = none) ∧
    (isNew = true → ¬ v1.fechaInicio < now) := by
  unfold saveDoc at h
  split at h
  · cases h
  next hpast =>
    split at h
    · cases h
    next hconf =>
      rw [Except.ok.injEq, Prod.mk.injEq] at h
      obtain ⟨hv1, hs1⟩ := h
      subst hv1
      refine ⟨rfl, hs1.symm, ?_, ?_⟩
      · intro hact
        rcases Option.eq_none_or_eq_some
            (findConflicting store (preSaveDerive now v).empleado (preSaveDerive now v).fechaInicio
              (preSaveDerive now v).fechaFin (some (preSaveDerive now v).id)) with hn | ⟨x, hx⟩
        · exact hn
        · exact absurd ⟨hact, by rw [hx]; rfl⟩ hconf
      · intro hnew hlt
        exact hpast ⟨hnew, hlt⟩

/-- A successful create keeps the store overlap-free: the route-level
overlap query already rejected any active conflicting record. -/
lemma create_preserves_NoOverlap {users : List Usr} {store : List Vacation} {req : Usr}
    {inp : CreateInput} {now : Nat} {v1 : Vacation} {s1 : List Vacation}
    (h : createVacation users store req inp now = .ok (v1, s1)) (hinv : NoOverlap store) :
    NoOverlap s1 := by
  unfold createVacation at h
  split at h
  · cases h
  split at h
  · cases h
  split at h
  · cases h
  split at h
  · cases h
  split at h
  · cases h
  next hconf =>
    obtain ⟨hv1, hs1, -, -⟩ := saveDoc_ok h
    rw [hs1, if_pos rfl]
    apply NoOverlap_insert hinv
    rw [hv1]
    simp only [preSaveDerive_empleado, preSaveDerive_fechaInicio, preSaveDerive_fechaFin,
      mkVacationDoc_empleado, mkVacationDoc_fechaInicio, mkVacationDoc_fechaFin]
    exact Option.not_isSome_iff_eq_none.mp hconf

/-- A successful approve keeps the store overlap-free: the save middleware
re-ran the overlap query for the approved record. -/
lemma approve_preserves_NoOverlap {users : List Usr} {store : List Vacation} {req : Usr}
    {id now : Nat} {v1 : Vacation} {s1 : List Vacation}
    (h : approveVacation users store req id now = .ok (v1, s1)) (hinv : NoOverlap store) :
    NoOverlap s1 := by
  unfold approveVacation at h
  split at h
  · cases h
  split at h
  · cases h
  next v hv =>
    split at h
    · cases h
    obtain ⟨hv1, hs1, hconf, -⟩ := saveDoc_ok h
    rw [hs1]
    simp only [Bool.false_eq_true, if_false]
    apply NoOverlap_replace hinv
    refine Or.inr (hconf (Or.inl ?_))
    rw [hv1]
    rfl

/-- A successful reject keeps the store overlap-free: the rejected record
leaves the set of active statuses. -/
lemma reject_preserves_NoOverlap {users : List Usr} {store : List Vacation} {req : Usr}
    {id : Nat} {mr : Option String} {now : Nat} {v1 : Vacation} {s1 : List Vacation}
    (h : rejectVacation users store req id mr now = .ok (v1, s1)) (hinv : NoOverlap store) :
    NoOverlap s1 := by
  unfold rejectVacation at h
  split at h
  · cases h
  split at h
  · cases h
  next s =>
    split at h
    · cases h
    split at h
    · cases h
    next v hv =>
      split at h
      · cases h
      obtain ⟨hv1, hs1, -, -⟩ := saveDoc_ok h
      rw [hs1]
      simp only [Bool.false_eq_true, if_false]
      apply NoOverlap_replace hinv
      refine Or.inl ?_
      rw [hv1]
      rfl

/-- A successful cancel keeps the store overlap-free: the cancelled record
leaves the set of active statuses. -/
lemma cancel_preserves_NoOverlap {users : List Usr} {store : List Vacation} {req : Usr}
    {id now : Nat} {v1 : Vacation} {s1 : List Vacation}
    (h : cancelVacation users store req id now = .ok (v1, s1)) (hinv : NoOverlap store) :
    NoOverlap s1 := by
  unfold cancelVacation at h
  split at h
  · cases h
  next v hv =>
    split at h
    · cases h
    split at h
    · cases h
    obtain ⟨hv1, hs1, -, -⟩ := saveDoc_ok h
    rw [hs1]
    simp only [Bool.false_eq_true, if_false]
    apply NoOverlap_replace hinv
    refine Or.inl ?_
    rw [hv1]
    rfl

@[simp] lemma preSaveDerive_anoVacacional (now : Nat) (v : Vacation) :
    (preSaveDerive now v).anoVacacional = v.anoVacacional := rfl

/-- Every span day is either a business day or a weekend day. -/
lemma cuentaHabiles_add_cuentaFinde (n : Nat) : ∀ d : Nat,
    cuentaHabiles d n + cuentaFinde d n = n := by
  induction n with
  | zero => intro d; rfl
  | succ n ih =>
    intro d
    have h2 := ih (d + 1)
    unfold cuentaHabiles cuentaFinde
    cases esHabil d <;> simp <;> omega

/-- Every stored id is bounded by the fold that computes the next fresh id. -/
lemma id_le_foldMax {store : List Vacation} {w : Vacation} (hw : w ∈ store) :
    w.id ≤ store.foldr (fun x m => max x.id m) 0 := by
  induction store with
  | nil => cases hw
  | cons a l ih =>
    rcases List.mem_cons.mp hw with hwa | hwl
    · subst hwa
      exact Nat.le_max_left _ _
    · exact le_trans (ih hwl) (Nat.le_max_right _ _)

/-- The fresh id of an insert differs from every stored id. -/
lemma newId_not_used {store : List Vacation} {w : Vacation} (hw : w ∈ store) :
    w.id ≠ newId store := by
  have := id_le_foldMax hw
  unfold newId
  omega

/-- If no record of `l1` satisfies the predicate, `find?` continues in `l2`. -/
lemma find?_append_of_none {α : Type} {p : α → Bool} {l1 l2 : List α}
    (h : l1.find? p = none) : (l1 ++ l2).find? p = l2.find? p := by
  rw [List.find?_append, h, Option.none_or]

/-- A record appended with the fresh id is found by `findById`. -/
lemma findById_append_newId {store : List Vacation} {v : Vacation}
    (hv : v.id = newId store) : findById (store ++ [v]) v.id = some v := by
  unfold findById
  rw [find?_append_of_none (List.find?_eq_none.mpr ?_)]
  · exact List.find?_cons_of_pos _ (by simp)
  · intro w hw
    simp only [decide_eq_true_eq]
    rw [hv]
    exact newId_not_used hw

/-- Replacing the found record makes `findById` return the replacement. -/
lemma findById_replaceById {store : List Vacation} {id : Nat} {v1 : Vacation}
    (hid : v1.id = id) : ∀ {v : Vacation}, findById store id = some v →
    findById (replaceById store v1) id = some v1 := by
  unfold findById replaceById
  induction store with
  | nil =>
    intro v hfind
    cases hfind
  | cons w l ih =>
    intro v hfind
    by_cases hw : w.id = id
    · rw [List.map_cons, if_pos (by rw [hid]; exact hw)]
      exact List.find?_cons_of_pos _ (by simp [hid])
    · rw [List.find?_cons_of_neg _ (by simp [hw])] at hfind
      rw [List.map_cons, if_neg (by rw [hid]; exact hw)]
      rw [List.find?_cons_of_neg _ (by simp [hw])]
      exact ih hfind

/-- Unfolding the approve route once the record is found. -/
lemma approveVacation_found {users : List Usr} {store : List Vacation} {req : Usr}
    {id now : Nat} {v : Vacation} (hrole : ¬ req.role = .empleado)
    (hfind : findById store id = some v) :
    approveVacation users store req id now =
      (if v.estado ≠ .pendiente then .error .invalidTransition
       else saveDoc store now
        { v with
          estado := .aprobada
          aprobadoPor := some req.id
          fechaAprobacion := some now
          modificadoPor := some req.id } false) := by
  unfold approveVacation
  rw [if_neg hrole, hfind]

/-- Unfolding the reject route once validation passed and the record is
found. -/
lemma rejectVacation_found {users : List Usr} {store : List Vacation} {req : Usr}
    {id now : Nat} {v : Vacation} {s : String} (hrole : ¬ req.role = .empleado)
    (hval : ¬ ((trimStr s) = "" ∨ 500 < (trimStr s).length))
    (hfind : findById store id = some v) :
    rejectVacation users store req id (some s) now =
      (if v.estado ≠ .pendiente then .error .invalidTransition
       else saveDoc store now
        { v with
          estado := .rechazada
          motivoRechazo := some (trimStr s)
          aprobadoPor := some req.id
          fechaAprobacion := some now
          modificadoPor := some req.id } false) := by
  simp only [rejectVacation]
  rw [if_neg hrole, if_neg hval, hfind]

/-- Unfolding the cancel route once the record is found. -/
lemma cancelVacation_found {users : List Usr} {store : List Vacation} {req : Usr}
    {id now : Nat} {v : Vacation} (hfind : findById store id = some v) :
    cancelVacation users store req id now =
      (if req.role = .empleado ∧ v.empleado ≠ req.id then .error .forbidden
       else if ¬ (v.estado = .pendiente ∨ v.estado = .aprobada) then .error .invalidTransition
       else saveDoc store now
        { v with
          estado := .cancelada
          modificadoPor := some req.id } false) := by
  unfold cancelVacation
  rw [hfind]

/-- C1 (amended): every sequence of successful create, approve, reject and
cancel operations preserves the no-overlap invariant — no two of an
employee's records with status in {approved, pending, in_progress} have
overlapping inclusive intervals.  (The original claim also listed `update`;
`update` goes through `findByIdAndUpdate`, which skips the save middlewares,
so it does not preserve the invariant — see the counterexample.) -/
theorem engine_steps_preserve_no_overlap (users : List Usr) (s1 s2 : List Vacation)
    (hinv : NoOverlap s1) (hs : EngineSteps users s1 s2) : NoOverlap s2 := by
  induction hs with
  | refl => exact hinv
  | tail hsteps hstep ih =>
    cases hstep with
    | create _ _ _ _ _ h => exact create_preserves_NoOverlap h ih
    | approve _ _ _ _ _ h => exact approve_preserves_NoOverlap h ih
    | reject _ _ _ _ _ _ h => exact reject_preserves_NoOverlap h ih
    | cancel _ _ _ _ _ h => exact cancel_preserves_NoOverlap h ih

/-- Witness for C1's theorem: starting from the empty store, one concrete
create yields an overlap-free store. -/
theorem engine_steps_preserve_no_overlap_witness : NoOverlap [recA] :=
  engine_steps_preserve_no_overlap demoUsers [] [recA] (by decide)
    (.tail (.refl []) (.create [] emp1 inpA nowJul1 recA [recA] (by decide)))

/-- C1 counterexample: create 2024-07-10→07-20 and 2024-08-10→08-20 for
employee 1 (overlap-free), then update the second pending record's start
date to 2024-07-15.  The update succeeds without any overlap re-check and
the resulting store violates the invariant. -/
theorem update_breaks_no_overlap :
    (storeAB.map fun s => decide (NoOverlap s)) = .ok true ∧
    (storeABupd.map fun s => decide (NoOverlap s)) = .ok false :=
  ⟨by decide, by decide⟩

/-- C2: the overlap predicate used by the create queries is inclusive on
both ends — intervals conflict iff `aStart ≤ bEnd` and `bStart ≤ aEnd` —
and concretely, with an approved record for 2024-07-10→2024-07-20, creating
2024-07-20→2024-07-25 for the same employee fails with
`overlappingRequest` (so nothing is persisted). -/
theorem overlap_inclusive_touching_conflict :
    (∀ aInicio aFin bInicio bFin : Nat,
      solapan aInicio aFin bInicio bFin = true ↔ aInicio ≤ bFin ∧ bInicio ≤ aFin) ∧
    createVacation demoUsers [recJulAprob] emp1 inpTouch nowJul1 =
      .error .overlappingRequest := by
  constructor
  · intro aInicio aFin bInicio bFin
    simp [solapan, ge_iff_le, and_comm]
  · decide

/-- C3: for midnight-aligned dates with `fin` strictly after `inicio`, the
inclusive calendar-day count equals the business-day count plus the number
of weekend days in the span. -/
theorem total_eq_habiles_add_weekend (inicio fin : Nat)
    (ha : inicio % dayMs = 0) (hb : fin % dayMs = 0) (hlt : inicio < fin) :
    diasTotales inicio fin = diasHabilesCalculados inicio fin + weekendDaysInSpan inicio fin := by
  obtain ⟨a, rfl⟩ : dayMs ∣ inicio := Nat.dvd_of_mod_eq_zero ha
  obtain ⟨b, rfl⟩ : dayMs ∣ fin := Nat.dvd_of_mod_eq_zero hb
  have hd : 0 < dayMs := by norm_num [dayMs]
  have hab : a < b := Nat.lt_of_mul_lt_mul_left hlt
  obtain ⟨k, rfl⟩ : ∃ k, b = a + (k + 1) := ⟨b - a - 1, by omega⟩
  have hdiff : dayMs * (a + (k + 1)) - dayMs * a = dayMs * (k + 1) := by
    rw [Nat.mul_add, Nat.add_sub_cancel_left]
  unfold diasTotales diasHabilesCalculados weekendDaysInSpan
  rw [hdiff, if_pos (Nat.mul_le_mul_left dayMs (by omega)),
    if_pos (Nat.mul_le_mul_left dayMs (by omega))]
  rw [Nat.mul_add_div hd, Nat.div_eq_of_lt (by omega), Nat.mul_div_cancel_left _ hd,
    Nat.mul_div_cancel_left _ hd, cuentaHabiles_add_cuentaFinde]

/-- Witness for C3 at 2024-07-15 → 2024-07-29. -/
theorem total_eq_habiles_add_weekend_witness :
    1721001600000 % dayMs = 0 ∧ 1722211200000 % dayMs = 0 ∧
    (1721001600000 : Nat) < 1722211200000 ∧
    diasTotales 1721001600000 1722211200000 =
      diasHabilesCalculados 1721001600000 1722211200000 +
        weekendDaysInSpan 1721001600000 1722211200000 :=
  ⟨by decide, by decide, by decide,
    total_eq_habiles_add_weekend 1721001600000 1722211200000 (by decide) (by decide) (by decide)⟩

/-- C4 (amended): a create whose body omits `diasSolicitados`,
`diasHabiles` and `estado` persists a pending record whose day counts are
derived from the virtuals, and the record is retrievable by `findById`
from the resulting store; in particular the Scenario A request
2024-07-15 → 2024-07-29 persists pending with 15 requested days and 11
business days. -/
theorem create_derives_day_counts (users : List Usr) (store : List Vacation) (req : Usr)
    (inp : CreateInput) (now : Nat) (v1 : Vacation) (s1 : List Vacation)
    (hds : inp.diasSolicitados = none) (hdh : inp.diasHabiles = none)
    (hes : inp.estado = none)
    (h : createVacation users store req inp now = .ok (v1, s1)) :
    (v1.estado = .pendiente ∧
      v1.diasSolicitados = some (diasTotales inp.fechaInicio inp.fechaFin) ∧
      v1.diasHabiles = some (diasHabilesCalculados inp.fechaInicio inp.fechaFin) ∧
      findById s1 v1.id = some v1) ∧
    ((createVacation demoUsers [] emp1 inpScenA nowJul1).map fun r =>
      (r.1.estado, r.1.diasSolicitados, r.1.diasHabiles)) =
        .ok (.pendiente, some 15, some 11) := by
  refine ⟨?_, by decide⟩
  unfold createVacation at h
  split at h
  · cases h
  split at h
  · cases h
  split at h
  · cases h
  split at h
  · cases h
  split at h
  · cases h
  obtain ⟨hv1, hs1, -, -⟩ := saveDoc_ok h
  rw [if_pos rfl] at hs1
  refine ⟨?_, ?_, ?_, ?_⟩
  · rw [hv1]
    simp [preSaveDerive_estado, mkVacationDoc_estado, hes]
  · rw [hv1]
    simp [preSaveDerive, mkVacationDoc, hds, jsFalsy]
  · rw [hv1]
    simp [preSaveDerive, mkVacationDoc, hdh, jsFalsy]
  · rw [hs1]
    exact findById_append_newId (by rw [hv1]; rfl)

/-- Witness for C4's amended theorem, instantiated at Scenario A itself:
creating 2024-07-15 → 2024-07-29 persists `recScenA`, pending with
`diasSolicitados = 15` and `diasHabiles = 11`. -/
theorem create_derives_day_counts_witness :
    ((recScenA.estado = .pendiente ∧
      recScenA.diasSolicitados = some (diasTotales inpScenA.fechaInicio inpScenA.fechaFin) ∧
      recScenA.diasHabiles = some (diasHabilesCalculados inpScenA.fechaInicio inpScenA.fechaFin) ∧
      findById [recScenA] recScenA.id = some recScenA) ∧
    ((createVacation demoUsers [] emp1 inpScenA nowJul1).map fun r =>
      (r.1.estado, r.1.diasSolicitados, r.1.diasHabiles)) =
        .ok (.pendiente, some 15, some 11)) ∧
    recScenA.diasSolicitados = some 15 ∧ recScenA.diasHabiles = some 11 :=
  ⟨create_derives_day_counts demoUsers [] emp1 inpScenA nowJul1 recScenA [recScenA]
    (by decide) (by decide) (by decide) (by decide), by decide, by decide⟩

/-- C4 counterexample: the create body is spread unfiltered into the model,
so a request that omits the day counts but mass-assigns
`estado: 'aprobada'` persists with status `aprobada`, not `pendiente`. -/
theorem create_estado_override :
    ((createVacation demoUsers [] emp1 inpEstadoAprobada nowJul1).map fun r => r.1.estado) =
      .ok .aprobada ∧
    inpEstadoAprobada.diasSolicitados = none ∧ inpEstadoAprobada.diasHabiles = none ∧
    Estado.aprobada ≠ Estado.pendiente :=
  ⟨by decide, by decide, by decide, by decide⟩

/-- C5: approving a pending record succeeds and sets the approval fields;
approving it again fails with `invalidTransition` instead of silently
succeeding (an error response never mutates the store). -/
theorem approve_twice_invalid_transition (users : List Usr) (store : List Vacation)
    (requester : Usr) (id now now2 : Nat) (v : Vacation)
    (hrole : ¬ requester.role = .empleado) (hfind : findById store id = some v)
    (hpend : v.estado = .pendiente)
    (hconf : findConflicting store v.empleado v.fechaInicio v.fechaFin (some v.id) = none) :
    ∃ v1 s1, approveVacation users store requester id now = .ok (v1, s1) ∧
      v1.estado = .aprobada ∧ v1.aprobadoPor = some requester.id ∧
      approveVacation users s1 requester id now2 = .error .invalidTransition := by
  have hfind1 : store.find? (fun w => decide (w.id = id)) = some v := hfind
  have hvid : v.id = id := by simpa using List.find?_some hfind1
  rw [approveVacation_found hrole hfind, if_neg (by simp [hpend])]
  unfold saveDoc
  rw [if_neg (by simp), if_neg (by simp [hconf])]
  refine ⟨_, _, rfl, rfl, rfl, ?_⟩
  simp only [Bool.false_eq_true, if_false]
  have hfind2 : findById
      (replaceById store (preSaveDerive now
        { v with
          estado := .aprobada
          aprobadoPor := some requester.id
          fechaAprobacion := some now
          modificadoPor := some requester.id })) id =
      some (preSaveDerive now
        { v with
          estado := .aprobada
          aprobadoPor := some requester.id
          fechaAprobacion := some now
          modificadoPor := some requester.id }) :=
    findById_replaceById hvid hfind
  rw [approveVacation_found hrole hfind2, if_pos (by simp)]

/-- Witness for C5: the admin approves the pending record `recA` twice. -/
theorem approve_twice_invalid_transition_witness :
    ∃ v1 s1, approveVacation demoUsers [recA] adminUsr 1 nowJul1 = .ok (v1, s1) ∧
      v1.estado = .aprobada ∧ v1.aprobadoPor = some adminUsr.id ∧
      approveVacation demoUsers s1 adminUsr 1 nowJul1 = .error .invalidTransition :=
  approve_twice_invalid_transition demoUsers [recA] adminUsr 1 nowJul1 nowJul1 recA
    (by decide) (by decide) (by decide) (by decide)

/-- C6: reject demands a pending record and a non-empty trimmed
`motivoRechazo` of at most 500 characters.  Without a reason the call fails
with `validationError` (leaving the record pending, since errors do not
write); with a valid reason it stores the trimmed reason, sets status
`rechazada`, and records the decider and the decision date. -/
theorem reject_requires_reason (users : List Usr) (store : List Vacation) (requester : Usr)
    (id now : Nat) (v : Vacation)
    (hrole : ¬ requester.role = .empleado) (hfind : findById store id = some v)
    (hpend : v.estado = .pendiente) :
    rejectVacation users store requester id none now = .error .validationError ∧
    (∀ s : String, trimStr s = "" ∨ 500 < (trimStr s).length →
      rejectVacation users store requester id (some s) now = .error .validationError) ∧
    (∀ s : String, ¬ trimStr s = "" → (trimStr s).length ≤ 500 →
      ∃ v1 s1, rejectVacation users store requester id (some s) now = .ok (v1, s1) ∧
        v1.estado = .rechazada ∧ v1.motivoRechazo = some (trimStr s) ∧
        v1.aprobadoPor = some requester.id ∧ v1.fechaAprobacion = some now) := by
  refine ⟨?_, ?_, ?_⟩
  · unfold rejectVacation
    rw [if_neg hrole]
  · intro s hbad
    simp only [rejectVacation]
    rw [if_neg hrole, if_pos hbad]
  · intro s hs1 hs2
    rw [rejectVacation_found hrole (by rw [not_or]; exact ⟨hs1, by omega⟩) hfind,
      if_neg (by simp [hpend])]
    unfold saveDoc
    rw [if_neg (by simp), if_neg (by simp)]
    exact ⟨_, _, rfl, rfl, rfl, rfl, rfl⟩

/-- Witness for C6: rejecting `recA` without a reason fails, rejecting it
with reason `"sin cupo"` succeeds and records the decision. -/
theorem reject_requires_reason_witness :
    rejectVacation demoUsers [recA] adminUsr 1 none nowJul1 = .error .validationError ∧
    rejectVacation demoUsers [recA] adminUsr 1 (some "   ") nowJul1 =
      .error .validationError ∧
    (∃ v1 s1, rejectVacation demoUsers [recA] adminUsr 1 (some "sin cupo") nowJul1 =
        .ok (v1, s1) ∧
      v1.estado = .rechazada ∧ v1.motivoRechazo = some (trimStr "sin cupo") ∧
      v1.aprobadoPor = some adminUsr.id ∧ v1.fechaAprobacion = some nowJul1) :=
  ⟨(reject_requires_reason demoUsers [recA] adminUsr 1 nowJul1 recA
      (by decide) (by decide) (by decide)).1,
   (reject_requires_reason demoUsers [recA] adminUsr 1 nowJul1 recA
      (by decide) (by decide) (by decide)).2.1 "   " (by decide),
   (reject_requires_reason demoUsers [recA] adminUsr 1 nowJul1 recA
      (by decide) (by decide) (by decide)).2.2 "sin cupo" (by decide) (by decide)⟩

/-- C7: cancel fails with `forbidden` for a non-owning employee, fails with
`invalidTransition` on any record that is neither pending nor approved (in
particular a rejected one), and on a pending or approved record sets the
status to `cancelada`. -/
theorem cancel_guards (users : List Usr) (store : List Vacation) (requester : Usr)
    (id now : Nat) (v : Vacation) (hfind : findById store id = some v) :
    (requester.role = .empleado ∧ v.empleado ≠ requester.id →
      cancelVacation users store requester id now = .error .forbidden) ∧
    (¬ (requester.role = .empleado ∧ v.empleado ≠ requester.id) →
      ¬ (v.estado = .pendiente ∨ v.estado = .aprobada) →
      cancelVacation users store requester id now = .error .invalidTransition) ∧
    (¬ (requester.role = .empleado ∧ v.empleado ≠ requester.id) →
      (v.estado = .pendiente ∨ v.estado = .aprobada) →
      ∃ v1 s1, cancelVacation users store requester id now = .ok (v1, s1) ∧
        v1.estado = .cancelada) := by
  rw [cancelVacation_found hfind]
  refine ⟨fun hf => ?_, fun hn ht => ?_, fun hn ht => ?_⟩
  · rw [if_pos hf]
  · rw [if_neg hn, if_pos ht]
  · rw [if_neg hn, if_neg (not_not.mpr ht)]
    unfold saveDoc
    rw [if_neg (by simp), if_neg (by simp)]
    exact ⟨_, _, rfl, rfl⟩

/-- Witness for C7 (Scenario D): cancelling the rejected record `recRech`
fails with `invalidTransition`. -/
theorem cancel_guards_witness :
    cancelVacation demoUsers [recRech] adminUsr 1 nowJul1 = .error .invalidTransition :=
  (cancel_guards demoUsers [recRech] adminUsr 1 nowJul1 recRech (by decide)).2.1
    (by decide) (by decide)

/-- C8: the balance endpoint sums `diasHabiles` over the employee's records
of the requested year with status in {aprobada, en_curso, completada} and
returns `diasRestantes = diasDisponibles - diasUtilizados`, but
`diasDisponibles` is the hardcoded constant 22 for every input — it is not
obtained from the contract collaborator (the source comments
"debería obtenerse del contrato"). -/
theorem balance_hardcoded_allocation (users : List Usr) (store : List Vacation)
    (requester : Usr) (empId : Nat) (yearQ : Option Nat) (now : Nat) (b : Balance)
    (h : vacationBalance users store requester empId yearQ now = .ok b) :
    b.diasDisponibles = 22 ∧
    b.diasUtilizados = ((store.filter
      (balanceFilter empId (yearQ.getD (getFullYear now)))).map
        fun w => w.diasHabiles.getD 0).sum ∧
    b.diasRestantes = 22 - (b.diasUtilizados : Int) := by
  unfold vacationBalance at h
  split at h
  · cases h
  split at h
  · cases h
  rw [Except.ok.injEq] at h
  subst h
  exact ⟨rfl, rfl, rfl⟩

/-- Witness for C8: a balance query on an empty store returns the hardcoded
allocation of 22 days. -/
theorem balance_hardcoded_allocation_witness :
    (⟨22, 0, 22⟩ : Balance).diasDisponibles = 22 ∧
    (⟨22, 0, 22⟩ : Balance).diasUtilizados = ((([] : List Vacation).filter
      (balanceFilter 1 ((some 2024).getD (getFullYear nowJul1)))).map
        fun w => w.diasHabiles.getD 0).sum ∧
    (⟨22, 0, 22⟩ : Balance).diasRestantes = 22 - (((⟨22, 0, 22⟩ : Balance).diasUtilizados : Int)) :=
  balance_hardcoded_allocation demoUsers [] adminUsr 1 (some 2024) nowJul1 ⟨22, 0, 22⟩
    (by decide)

/-- C9 (amended): a create that does not supply `anoVacacional` persists the
record with the calendar year of the creation instant `now` (the schema
default evaluates `new Date().getFullYear()`), not the year of the start
date. -/
theorem ano_vacacional_eq_year_of_now (users : List Usr) (store : List Vacation) (req : Usr)
    (inp : CreateInput) (now : Nat) (v1 : Vacation) (s1 : List Vacation)
    (hyear : inp.anoVacacional = none)
    (h : createVacation users store req inp now = .ok (v1, s1)) :
    v1.anoVacacional = getFullYear now := by
  unfold createVacation at h
  split at h
  · cases h
  split at h
  · cases h
  split at h
  · cases h
  split at h
  · cases h
  split at h
  · cases h
  obtain ⟨hv1, -, -, -⟩ := saveDoc_ok h
  rw [hv1]
  simp [preSaveDerive_anoVacacional, mkVacationDoc_anoVacacional, hyear]

/-- Witness for C9's amended theorem: `recA` was created at `nowJul1` and
carries that instant's year, 2024. -/
theorem ano_vacacional_eq_year_of_now_witness : recA.anoVacacional = getFullYear nowJul1 :=
  ano_vacacional_eq_year_of_now demoUsers [] emp1 inpA nowJul1 recA [recA]
    (by decide) (by decide)

/-- C9 counterexample: creating 2025-01-10 → 2025-01-20 on 2024-12-30
persists `anoVacacional = 2024`, the year of "now", while the year of the
start date is 2025. -/
theorem ano_vacacional_ignores_start_year :
    ((createVacation demoUsers [] emp1 inpEnero nowDec30).map fun r => r.1.anoVacacional) =
      .ok 2024 ∧
    getFullYear inpEnero.fechaInicio = 2025 ∧ (2024 : Nat) ≠ 2025 :=
  ⟨by decide, by decide, by decide⟩

/-- C10: a create whose start date lies strictly in the past fails (the
save middleware rejects it) even when every spec-stated precondition —
valid body, existing employee and replacement, end after start, no overlap
— holds; the error return persists nothing. -/
theorem create_past_start_fails (users : List Usr) (store : List Vacation) (req : Usr)
    (inp : CreateInput) (now : Nat)
    (hva : validCreateBody inp = true)
    (hemp : (users.find? fun u => decide (u.id = empleadoIdFor req inp)).isNone = false)
    (hre : reemplazoMissing users inp.reemplazo = false)
    (hdate : inp.fechaInicio < inp.fechaFin)
    (hconf : (findConflicting store (empleadoIdFor req inp) inp.fechaInicio inp.fechaFin
      none).isSome = false)
    (hpast : inp.fechaInicio < now) :
    createVacation users store req inp now = .error .pastStartDate := by
  unfold createVacation
  rw [if_neg (by simp [hva]), if_neg (by simp [hemp]), if_neg (by simp [hre]),
    if_neg (by omega), if_neg (by simp [hconf])]
  unfold saveDoc
  rw [if_pos ⟨rfl, by simpa using hpast⟩]

/-- Witness for C10: requesting 2024-06-10 → 2024-06-20 on 2024-07-01
fails with the past-start-date error. -/
theorem create_past_start_fails_witness :
    createVacation demoUsers [] emp1 inpJunio nowJul1 = .error .pastStartDate :=
  create_past_start_fails demoUsers [] emp1 inpJunio nowJul1
    (by decide) (by decide) (by decide) (by decide) (by decide) (by decide)

end Horarios
